import Mathlib

/-!
# Verification of the `configs` command dispatcher of the Doppler CLI

This development gives a shallow embedding of the two variants of the
`configs` command group found in the repository:

* `src/unnamed/part_000` (the "Enclave" variant): list / get / create /
  update / delete / logs / logs get / logs rollback, with validation and
  a confirmation prompt on delete;
* `src/cmd/configs.go` (the "v1" variant): same commands without logs,
  where `environment` is enforced as a required flag, and with the local
  renderers `printConfigsInfo` / `printConfigInfo`.

Each command's `Run` body is embedded as a pure function from its inputs
(flags, positional arguments, the resolved local settings bundle, the
user's prompt answer, and the API collaborator's responses) to a
`RunResult`: the ordered trace of API calls issued, the outputs printed,
and the process exit.  External collaborators (the HTTP transport, the
local-configuration resolver, the interactive prompt) are inputs of the
functions, exactly as the spec scopes them.
-/

namespace DopplerCLI

/-- A Config record as rendered by the command layer: the fields of
`api.ConfigInfo` used by `printConfigsInfo` / `printConfigInfo` in
`src/cmd/configs.go` (name, missing variables, deployment and creation
timestamps, environment/stage, project). -/
structure ConfigInfo where
  name : String
  missingVariables : List String
  deployedAt : String
  createdAt : String
  environment : String
  project : String
deriving DecidableEq, Repr

/-- An audit log entry, identified by an opaque log id. -/
structure LogEntry where
  id : String
deriving DecidableEq, Repr

/-- The resolved local settings bundle the commands read
(`configuration.LocalConfig(cmd)`), with `verifyTLS` already resolved
through `utils.GetBool(localConfig.VerifyTLS.Value, true)` by the
external configuration resolver. -/
structure LocalConfig where
  apiHost : String
  verifyTLS : Bool
  token : String
  project : String
  config : String
deriving DecidableEq, Repr

/-- The resolved settings bundle of the v1 variant (`src/cmd/configs.go`),
which passes an API key instead of host/TLS/token. -/
structure LocalConfigV1 where
  key : String
  project : String
  config : String
deriving DecidableEq, Repr

/-- One API call as issued by the command layer, with the arguments the
source passes to the `api` package. -/
inductive ApiCall where
  | getConfigs (host : String) (verifyTLS : Bool) (token project : String)
  | getConfig (host : String) (verifyTLS : Bool) (token project config : String)
  | createConfig (host : String) (verifyTLS : Bool) (token project name environment : String)
      (defaults : Bool)
  | deleteConfig (host : String) (verifyTLS : Bool) (token project config : String)
  | updateConfig (host : String) (verifyTLS : Bool) (token project config name : String)
  | getConfigLogs (host : String) (verifyTLS : Bool) (token project config : String)
  | getConfigLog (host : String) (verifyTLS : Bool) (token project config log : String)
  | rollbackConfigLog (host : String) (verifyTLS : Bool) (token project config log : String)
  | createAPIConfigV1 (key project name environment : String) (defaults : Bool)
deriving DecidableEq, Repr

/-- The result of one API call: a success payload, or a structured error
carrying the underlying cause (`err.Unwrap()`) and the human-readable
message (`err.Message`). -/
inductive ApiResult (α : Type) where
  | ok (value : α)
  | err (cause message : String)
deriving DecidableEq, Repr

/-- A JSON value, for the serialized (`--json`) output. -/
inductive Json where
  | str (s : String)
  | arr (elems : List Json)
  | obj (fields : List (String × Json))

/-- Something printed to the terminal: an aligned table (header row plus
data rows), a JSON payload, or a rendered list of / single audit log
entry. -/
inductive Output where
  | table (header : List String) (rows : List (List String))
  | json (value : Json)
  | logList (entries : List LogEntry)
  | logOne (entry : LogEntry)

/-- How the process terminates: normally, or through `utils.Err` with the
error's cause and message. -/
inductive CmdExit where
  | success
  | failure (cause message : String)
deriving DecidableEq, Repr

/-- The exit status: zero on normal termination, non-zero (modelled as 1)
when `utils.Err` reported an error. -/
def CmdExit.code : CmdExit → Nat
  | .success => 0
  | .failure _ _ => 1

/-- The observable behaviour of one command invocation: the ordered API
calls issued, the outputs printed, and the exit. -/
structure RunResult where
  calls : List ApiCall
  printed : List Output
  exit : CmdExit

/-- `x := fallback; if len(args) > 0 then x = args[0]`: the positional
argument, when present, overrides the fallback value. -/
def resolvePositional (args : List String) (fallback : String) : String :=
  match args with
  | [] => fallback
  | a :: _ => a

/-- First position of the character `c` in a character list, or `none`. -/
def goStringsIndexAux (c : Char) : List Char → Option Nat
  | [] => none
  | a :: rest => if a = c then some 0 else (goStringsIndexAux c rest).map (· + 1)

/-- Go's `strings.Index s "_"` restricted to a one-character needle,
as the character position of the first occurrence (`none` for `-1`).
Slicing `s[0:Index(s, c)]` keeps exactly the characters strictly before
the first occurrence of `c`, so character positions embed the byte
positions faithfully here. -/
def goStringsIndex (s : String) (c : Char) : Option Nat :=
  goStringsIndexAux c s.toList

/-- The environment derivation of `configsCreateCmd`
(`src/unnamed/part_000` lines 91-93):
`if environment == "" && strings.Index(name, "_") != -1 then
environment = name[0:strings.Index(name, "_")]`. -/
def configsCreateResolveEnv (environment name : String) : String :=
  match goStringsIndex name '_' with
  | some i => if environment = "" then ((name.toList.take i).asString) else environment
  | none => environment

/-- `json.Marshal` of one `api.ConfigInfo`.
Modelled from the spec: the declared JSON schema of `api.ConfigInfo`
(package `pkg/api`, not under `src/`) is taken from the spec's Config
data model — name, missing variables, deployed-at, created-at,
environment/stage, project — serialized in that declared order. -/
def marshalConfigInfo (c : ConfigInfo) : Json :=
  .obj [("name", .str c.name),
        ("missing_variables", .arr (c.missingVariables.map .str)),
        ("deployed_at", .str c.deployedAt),
        ("created_at", .str c.createdAt),
        ("stage", .str c.environment),
        ("project", .str c.project)]

/-- `json.Marshal` of a `[]api.ConfigInfo`: the JSON array of the
serialized records, in order. -/
def marshalConfigInfos (info : List ConfigInfo) : Json :=
  .arr (info.map marshalConfigInfo)

/-- Decode a list of JSON values as a list of strings. -/
def jsonToStrings : List Json → Option (List String)
  | [] => some []
  | .str s :: rest => (jsonToStrings rest).map (s :: ·)
  | _ :: _ => none

/-- Deserialize one serialized Config record, expecting exactly the
declared schema: no field added, dropped, or reordered. -/
def unmarshalConfigInfo : Json → Option ConfigInfo
  | .obj [("name", .str name),
          ("missing_variables", .arr mv),
          ("deployed_at", .str deployedAt),
          ("created_at", .str createdAt),
          ("stage", .str environment),
          ("project", .str project)] =>
      (jsonToStrings mv).map fun missingVariables =>
        ⟨name, missingVariables, deployedAt, createdAt, environment, project⟩
  | _ => none

/-- Deserialize a list of serialized Config records, elementwise. -/
def unmarshalConfigInfoList : List Json → Option (List ConfigInfo)
  | [] => some []
  | j :: rest =>
      match unmarshalConfigInfo j, unmarshalConfigInfoList rest with
      | some c, some cs => some (c :: cs)
      | _, _ => none

/-- Deserialize a serialized list of Config records. -/
def unmarshalConfigInfos : Json → Option (List ConfigInfo)
  | .arr elems => unmarshalConfigInfoList elems
  | _ => none

/-- The field names of a serialized object, in serialization order. -/
def jsonFieldNames : Json → List String
  | .obj fields => fields.map Prod.fst
  | _ => []

/-- The fixed table header emitted by both renderers of
`src/cmd/configs.go`. -/
def configTableHeader : List String :=
  ["name", "missing_variables", "deployed_at", "created_at", "stage", "project"]

/-- One table row for a Config record
(`src/cmd/configs.go` lines 182 and 198): name, the missing variables
joined by `", "`, deployed-at, created-at, environment, project. -/
def configRow (c : ConfigInfo) : List String :=
  [c.name, String.intercalate ", " c.missingVariables, c.deployedAt, c.createdAt,
   c.environment, c.project]

/-- `printConfigsInfo` (`src/cmd/configs.go` lines 169-185): with the
json flag, print the serialized payload; otherwise print the fixed-header
table with one row per record. -/
def printConfigsInfo (info : List ConfigInfo) (jsonFlag : Bool) : Output :=
  if jsonFlag then
    .json (marshalConfigInfos info)
  else
    .table configTableHeader (info.map configRow)

/-- `printConfigInfo` (`src/cmd/configs.go` lines 187-200): with the json
flag, print the serialized record; otherwise print the fixed-header table
with the single row for this record. -/
def printConfigInfo (info : ConfigInfo) (jsonFlag : Bool) : Output :=
  if jsonFlag then
    .json (marshalConfigInfo info)
  else
    .table configTableHeader [configRow info]

/-- `utils.PrintLogs(logs, number, jsonFlag)`.
Modelled from the spec: the renderer (`pkg/utils`, not under `src/`)
"renders entries most-recent-first, truncated to the requested count" —
it keeps the first `number` entries of the most-recent-first list the API
returned, as a JSON payload or a rendered list. -/
def PrintLogs (logs : List LogEntry) (number : Nat) (jsonFlag : Bool) : Output :=
  if jsonFlag then
    .json (.arr ((logs.take number).map fun l => .str l.id))
  else
    .logList (logs.take number)

/-- `utils.PrintLog(log, jsonFlag)`.
Modelled from the spec: render the single entry's raw fields. -/
def PrintLog (log : LogEntry) (jsonFlag : Bool) : Output :=
  if jsonFlag then .json (.str log.id) else .logOne log

/-- `configsCmd.Run` (`src/unnamed/part_000` lines 37-47): one
get-all-configs call; on API error report cause and message and exit
non-zero, else print the configs. -/
def configsCmdRun (jsonFlag : Bool) (lc : LocalConfig)
    (apiGetConfigs : ApiResult (List ConfigInfo)) : RunResult :=
  let call := ApiCall.getConfigs lc.apiHost lc.verifyTLS lc.token lc.project
  match apiGetConfigs with
  | .err c m => ⟨[call], [], .failure c m⟩
  | .ok configs => ⟨[call], [printConfigsInfo configs jsonFlag], .success⟩

/-- `configsGetCmd.Run` (`src/unnamed/part_000` lines 54-69): the config
name is the positional argument when present, else the settings bundle's
config; one get-config call; print the record on success. -/
def configsGetCmdRun (args : List String) (jsonFlag : Bool) (lc : LocalConfig)
    (apiGetConfig : ApiResult ConfigInfo) : RunResult :=
  let config := resolvePositional args lc.config
  let call := ApiCall.getConfig lc.apiHost lc.verifyTLS lc.token lc.project config
  match apiGetConfig with
  | .err c m => ⟨[call], [], .failure c m⟩
  | .ok configInfo => ⟨[call], [printConfigInfo configInfo jsonFlag], .success⟩

/-- `configsCreateCmd.Run` (`src/unnamed/part_000` lines 76-108): resolve
the name (positional over the `name` flag); reject an empty name; derive
the environment from the name when the `environment` flag is empty;
reject an empty environment; then one create-config call with
`defaults = !no-defaults`; on success print the created record unless
silent. -/
def configsCreateCmdRun (args : List String) (nameFlag environmentFlag : String)
    (noDefaultsFlag silent jsonFlag : Bool) (lc : LocalConfig)
    (apiCreateConfig : ApiResult ConfigInfo) : RunResult :=
  let defaults := !noDefaultsFlag
  let name := resolvePositional args nameFlag
  if name = "" then
    ⟨[], [], .failure "you must specify a name" ""⟩
  else
    let environment := configsCreateResolveEnv environmentFlag name
    if environment = "" then
      ⟨[], [], .failure "you must specify an environment" ""⟩
    else
      let call := ApiCall.createConfig lc.apiHost lc.verifyTLS lc.token lc.project
        name environment defaults
      match apiCreateConfig with
      | .err c m => ⟨[call], [], .failure c m⟩
      | .ok info =>
          ⟨[call], if silent then [] else [printConfigInfo info jsonFlag], .success⟩

/-- `configsDeleteCmd.Run` (`src/unnamed/part_000` lines 115-141): the
config name is the positional argument when present, else the settings
bundle's; proceed only when `--yes` is set or the confirmation prompt is
answered affirmatively; then one delete call, and unless silent one
get-all-configs call whose result is printed; declining performs no call
and exits normally. -/
def configsDeleteCmdRun (args : List String) (silent yes jsonFlag : Bool)
    (promptAnswer : Bool) (lc : LocalConfig)
    (apiDeleteConfig : ApiResult Unit)
    (apiGetConfigs : ApiResult (List ConfigInfo)) : RunResult :=
  let config := resolvePositional args lc.config
  if yes || promptAnswer then
    let dcall := ApiCall.deleteConfig lc.apiHost lc.verifyTLS lc.token lc.project config
    match apiDeleteConfig with
    | .err c m => ⟨[dcall], [], .failure c m⟩
    | .ok _ =>
        if silent then
          ⟨[dcall], [], .success⟩
        else
          let gcall := ApiCall.getConfigs lc.apiHost lc.verifyTLS lc.token lc.project
          match apiGetConfigs with
          | .err c m => ⟨[dcall, gcall], [], .failure c m⟩
          | .ok configs =>
              ⟨[dcall, gcall], [printConfigsInfo configs jsonFlag], .success⟩
  else
    ⟨[], [], .success⟩

/-- `configsUpdateCmd.Run` (`src/unnamed/part_000` lines 148-167): the
config name is the positional argument when present, else the settings
bundle's; one rename call with the `name` flag; print the result unless
silent. -/
def configsUpdateCmdRun (args : List String) (nameFlag : String)
    (silent jsonFlag : Bool) (lc : LocalConfig)
    (apiUpdateConfig : ApiResult ConfigInfo) : RunResult :=
  let config := resolvePositional args lc.config
  let call := ApiCall.updateConfig lc.apiHost lc.verifyTLS lc.token lc.project config nameFlag
  match apiUpdateConfig with
  | .err c m => ⟨[call], [], .failure c m⟩
  | .ok info =>
      ⟨[call], if silent then [] else [printConfigInfo info jsonFlag], .success⟩

/-- `configsLogsCmd.Run` (`src/unnamed/part_000` lines 174-185): one
get-config-logs call; render the entries bounded by the `number` flag.
The flag's registered default is 5 (`src/unnamed/part_000` line 266);
`numberFlag = none` stands for the flag not being supplied. -/
def configsLogsCmdRun (jsonFlag : Bool) (numberFlag : Option Nat) (lc : LocalConfig)
    (apiGetConfigLogs : ApiResult (List LogEntry)) : RunResult :=
  let number := numberFlag.getD 5
  let call := ApiCall.getConfigLogs lc.apiHost lc.verifyTLS lc.token lc.project lc.config
  match apiGetConfigLogs with
  | .err c m => ⟨[call], [], .failure c m⟩
  | .ok logs => ⟨[call], [PrintLogs logs number jsonFlag], .success⟩

/-- `configsLogsGetCmd.Run` (`src/unnamed/part_000` lines 192-208): the
log id is the positional argument when present, else the `log` flag; one
get-config-log call; render the entry on success. -/
def configsLogsGetCmdRun (args : List String) (logFlag : String) (jsonFlag : Bool)
    (lc : LocalConfig) (apiGetConfigLog : ApiResult LogEntry) : RunResult :=
  let log := resolvePositional args logFlag
  let call := ApiCall.getConfigLog lc.apiHost lc.verifyTLS lc.token lc.project lc.config log
  match apiGetConfigLog with
  | .err c m => ⟨[call], [], .failure c m⟩
  | .ok configLog => ⟨[call], [PrintLog configLog jsonFlag], .success⟩

/-- `configsLogsRollbackCmd.Run` (`src/unnamed/part_000` lines 215-234):
the log id is the positional argument when present, else the `log` flag;
one rollback call; render the resulting entry unless silent. -/
def configsLogsRollbackCmdRun (args : List String) (logFlag : String)
    (silent jsonFlag : Bool) (lc : LocalConfig)
    (apiRollbackConfigLog : ApiResult LogEntry) : RunResult :=
  let log := resolvePositional args logFlag
  let call := ApiCall.rollbackConfigLog lc.apiHost lc.verifyTLS lc.token lc.project
    lc.config log
  match apiRollbackConfigLog with
  | .err c m => ⟨[call], [], .failure c m⟩
  | .ok configLog =>
      ⟨[call], if silent then [] else [PrintLog configLog jsonFlag], .success⟩

/-- `configsCreateCmd.Run` of the v1 variant (`src/cmd/configs.go` lines
68-85): resolve the name (positional over the `name` flag), then one
create call with the `environment` flag's value as given; no local
validation in the body. -/
def configsCreateCmdRunV1 (args : List String) (nameFlag environmentFlag : String)
    (defaultsFlag silent jsonFlag : Bool) (lc : LocalConfigV1)
    (apiCreate : ConfigInfo) : RunResult :=
  let name := resolvePositional args nameFlag
  ⟨[ApiCall.createAPIConfigV1 lc.key lc.project name environmentFlag defaultsFlag],
   if silent then [] else [printConfigInfo apiCreate jsonFlag], .success⟩

/-- Modelled from the spec: cobra's required-flag enforcement (the
`environment` flag is marked required in `src/cmd/configs.go` line 149;
the enforcement itself lives in the external cobra library) rejects an
invocation that did not supply the required flag before the command body
runs; otherwise the body runs. -/
def invokeCreateV1 (environmentProvided : Bool) (body : RunResult) : RunResult :=
  if environmentProvided then body
  else ⟨[], [], .failure "required flag environment not set" ""⟩

/-! ## Helper lemmas -/

theorem jsonToStrings_map_str (xs : List String) :
    jsonToStrings (xs.map Json.str) = some xs := by
  induction xs with
  | nil => rfl
  | cons x xs ih => simp [jsonToStrings, ih]

theorem unmarshalConfigInfo_marshalConfigInfo (c : ConfigInfo) :
    unmarshalConfigInfo (marshalConfigInfo c) = some c := by
  cases c
  simp [marshalConfigInfo, unmarshalConfigInfo, jsonToStrings_map_str]

theorem unmarshalConfigInfoList_map_marshal (info : List ConfigInfo) :
    unmarshalConfigInfoList (info.map marshalConfigInfo) = some info := by
  induction info with
  | nil => rfl
  | cons c cs ih =>
      simp [unmarshalConfigInfoList, unmarshalConfigInfo_marshalConfigInfo, ih]

/-- Whether an API call is a delete-config call. -/
def ApiCall.isDeleteCall : ApiCall → Bool
  | .deleteConfig .. => true
  | _ => false

/-- Whether an API call is a get-all-configs (list) call. -/
def ApiCall.isListCall : ApiCall → Bool
  | .getConfigs .. => true
  | _ => false

/-- How many delete-config calls an invocation performed. -/
def countDeleteCalls (r : RunResult) : Nat :=
  (r.calls.filter ApiCall.isDeleteCall).length

/-- How many list-configs calls an invocation performed. -/
def countListCalls (r : RunResult) : Nat :=
  (r.calls.filter ApiCall.isListCall).length

/-! ## Claims -/

/-- **C6.** For every config record or list of config records rendered
without `--json`, the table emitted has exactly the header columns
name, missing_variables, deployed_at, created_at, stage, project, one
row per record, and the missing_variables cell equals the record's
missing-variable names joined by the two-character separator `", "`. -/
theorem c6_table_rendering (info : List ConfigInfo) (c : ConfigInfo) :
    printConfigsInfo info false =
      .table ["name", "missing_variables", "deployed_at", "created_at", "stage", "project"]
        (info.map configRow) ∧
    (info.map configRow).length = info.length ∧
    printConfigInfo c false =
      .table ["name", "missing_variables", "deployed_at", "created_at", "stage", "project"]
        [configRow c] ∧
    (configRow c)[1]? = some (String.intercalate ", " c.missingVariables) ∧
    (", ").length = 2 := by
  refine ⟨rfl, by simp, rfl, rfl, rfl⟩

/-- **C7.** For every command invoked with `--json`, the printed output
is exactly the JSON serialization of the payload returned by the API
collaborator, so that deserializing the printed output recovers the
payload, with the serialized object carrying exactly the declared
fields in their declared order. -/
theorem c7_json_roundtrip (info : List ConfigInfo) (c : ConfigInfo) :
    printConfigsInfo info true = .json (marshalConfigInfos info) ∧
    unmarshalConfigInfos (marshalConfigInfos info) = some info ∧
    printConfigInfo c true = .json (marshalConfigInfo c) ∧
    unmarshalConfigInfo (marshalConfigInfo c) = some c ∧
    jsonFieldNames (marshalConfigInfo c) =
      ["name", "missing_variables", "deployed_at", "created_at", "stage", "project"] := by
  refine ⟨rfl, ?_, rfl, unmarshalConfigInfo_marshalConfigInfo c, rfl⟩
  simp [unmarshalConfigInfos, marshalConfigInfos, unmarshalConfigInfoList_map_marshal]

/-- **C3.** For every invocation of the delete-config command in which
`--yes` is not set and the user answers no to the confirmation prompt,
zero API calls are performed and the process exits with status 0. -/
theorem c3_declined_delete (args : List String) (silent jsonFlag : Bool)
    (lc : LocalConfig) (apiDelete : ApiResult Unit)
    (apiList : ApiResult (List ConfigInfo)) :
    (configsDeleteCmdRun args silent false jsonFlag false lc apiDelete apiList).calls = [] ∧
    (configsDeleteCmdRun args silent false jsonFlag false lc apiDelete apiList).exit.code = 0 := by
  exact ⟨rfl, rfl⟩

/-- **C5.** For every command that accepts a positional argument for the
config name (get, update, delete) or the log id (logs get, logs
rollback), the value used in the API call is the positional argument
when present — overriding the settings-bundle config value or the
`--log` flag respectively — and the flag/settings value when absent. -/
theorem c5_positional_precedence (args : List String) (a fallback : String)
    (nameFlag logFlag : String) (silent jsonFlag promptAnswer : Bool)
    (lc : LocalConfig) (apiG : ApiResult ConfigInfo)
    (apiU : ApiResult ConfigInfo) (apiD : ApiResult Unit)
    (apiL : ApiResult (List ConfigInfo)) (apiLG : ApiResult LogEntry)
    (apiR : ApiResult LogEntry) :
    resolvePositional (a :: args) fallback = a ∧
    resolvePositional [] fallback = fallback ∧
    (configsGetCmdRun args jsonFlag lc apiG).calls =
      [ApiCall.getConfig lc.apiHost lc.verifyTLS lc.token lc.project
        (resolvePositional args lc.config)] ∧
    (configsUpdateCmdRun args nameFlag silent jsonFlag lc apiU).calls =
      [ApiCall.updateConfig lc.apiHost lc.verifyTLS lc.token lc.project
        (resolvePositional args lc.config) nameFlag] ∧
    (configsDeleteCmdRun args silent true jsonFlag promptAnswer lc apiD apiL).calls.head? =
      some (ApiCall.deleteConfig lc.apiHost lc.verifyTLS lc.token lc.project
        (resolvePositional args lc.config)) ∧
    (configsLogsGetCmdRun args logFlag jsonFlag lc apiLG).calls =
      [ApiCall.getConfigLog lc.apiHost lc.verifyTLS lc.token lc.project lc.config
        (resolvePositional args logFlag)] ∧
    (configsLogsRollbackCmdRun args logFlag silent jsonFlag lc apiR).calls =
      [ApiCall.rollbackConfigLog lc.apiHost lc.verifyTLS lc.token lc.project lc.config
        (resolvePositional args logFlag)] := by
  refine ⟨rfl, rfl, ?_, ?_, ?_, ?_, ?_⟩
  · cases apiG <;> rfl
  · cases apiU <;> rfl
  · cases apiD <;> cases silent <;> cases apiL <;> rfl
  · cases apiLG <;> rfl
  · cases apiR <;> rfl

/-- **C1 counterexample.** The resolved name `"_dev"` contains an
underscore and the `--environment` flag is empty, yet the create command
performs no API call at all — it is rejected for an empty derived
environment — so no environment equal to the before-first-underscore
substring is sent to the API. -/
theorem c1_counterexample :
    ("_dev".toList.contains '_' = true) ∧
    (configsCreateCmdRun ["_dev"] "" "" false false false ⟨"h", true, "t", "p", "c"⟩
        (.ok ⟨"cfg", [], "", "", "", ""⟩)).calls = [] ∧
    (configsCreateCmdRun ["_dev"] "" "" false false false ⟨"h", true, "t", "p", "c"⟩
        (.ok ⟨"cfg", [], "", "", "", ""⟩)).exit =
      .failure "you must specify an environment" "" := by
  exact ⟨by decide, by decide, by decide⟩

/-- **C1 (amended).** For every resolved config name whose first
underscore sits at position `i` with a nonempty substring before it,
create-config invoked with an empty `--environment` flag sends exactly
one API call whose environment is the substring strictly before the
first underscore; and whenever the resolved name is nonempty but
derivation still yields an empty environment (name with no underscore,
or nothing before the first one) with no explicit environment flag, the
command is rejected with no API call. -/
theorem c1_environment_derivation (args : List String) (nameFlag : String)
    (noDefaultsFlag silent jsonFlag : Bool) (lc : LocalConfig)
    (api : ApiResult ConfigInfo) :
    (∀ i, goStringsIndex (resolvePositional args nameFlag) '_' = some i →
      ((resolvePositional args nameFlag).toList.take i).asString ≠ "" →
      (configsCreateCmdRun args nameFlag "" noDefaultsFlag silent jsonFlag lc api).calls =
        [ApiCall.createConfig lc.apiHost lc.verifyTLS lc.token lc.project
          (resolvePositional args nameFlag)
          (((resolvePositional args nameFlag).toList.take i).asString) (!noDefaultsFlag)]) ∧
    (resolvePositional args nameFlag ≠ "" →
      configsCreateResolveEnv "" (resolvePositional args nameFlag) = "" →
      configsCreateCmdRun args nameFlag "" noDefaultsFlag silent jsonFlag lc api =
        ⟨[], [], .failure "you must specify an environment" ""⟩) := by
  constructor
  · intro i hidx hpre
    have hne : resolvePositional args nameFlag ≠ "" := by
      intro he
      apply hpre
      rw [he]
      show (List.take i ([] : List Char)).asString = ""
      rw [List.take_nil]
      rfl
    have henv : configsCreateResolveEnv "" (resolvePositional args nameFlag) =
        ((resolvePositional args nameFlag).toList.take i).asString := by
      simp [configsCreateResolveEnv, hidx]
    simp only [String.toList] at hpre
    cases api <;> simp [configsCreateCmdRun, hne, henv, hpre]
  · intro hne henv
    simp [configsCreateCmdRun, hne, henv]

/-- **C1 witness.** `configs create backend_dev` with no `--environment`
sends one create call with environment `backend`. -/
theorem c1_environment_derivation_witness :
    (configsCreateCmdRun ["backend_dev"] "" "" false false false
        ⟨"h", true, "t", "p", "c"⟩ (.ok ⟨"cfg", [], "", "", "", ""⟩)).calls =
      [ApiCall.createConfig "h" true "t" "p" "backend_dev" "backend" true] := by
  have h := (c1_environment_derivation ["backend_dev"] "" false false false
    ⟨"h", true, "t", "p", "c"⟩ (.ok ⟨"cfg", [], "", "", "", ""⟩)).1 7 (by decide) (by decide)
  exact h.trans (by decide)

/-- **C2.** For every invocation of the create-config command, if the
resolved name is empty, or the resolved environment is still empty after
derivation, the command reports a user-facing validation error and makes
no API call; in the variant where environment is a required flag, the
rejection is enforced before the command body runs. -/
theorem c2_create_validation (args : List String) (nameFlag environmentFlag : String)
    (noDefaultsFlag silent jsonFlag : Bool) (lc : LocalConfig)
    (api : ApiResult ConfigInfo) (body : RunResult) :
    (resolvePositional args nameFlag = "" →
      configsCreateCmdRun args nameFlag environmentFlag noDefaultsFlag silent jsonFlag lc api =
        ⟨[], [], .failure "you must specify a name" ""⟩) ∧
    (resolvePositional args nameFlag ≠ "" →
      configsCreateResolveEnv environmentFlag (resolvePositional args nameFlag) = "" →
      configsCreateCmdRun args nameFlag environmentFlag noDefaultsFlag silent jsonFlag lc api =
        ⟨[], [], .failure "you must specify an environment" ""⟩) ∧
    (invokeCreateV1 false body =
      ⟨[], [], .failure "required flag environment not set" ""⟩) := by
  refine ⟨?_, ?_, rfl⟩
  · intro h
    simp [configsCreateCmdRun, h]
  · intro h1 h2
    simp [configsCreateCmdRun, h1, h2]

/-- **C2 witness.** `configs create` with no positional name and an
empty `name` flag is rejected with the name validation error and no API
call. -/
theorem c2_create_validation_witness :
    configsCreateCmdRun [] "" "dev" false false false ⟨"h", true, "t", "p", "c"⟩
      (.ok ⟨"cfg", [], "", "", "", ""⟩) =
      ⟨[], [], .failure "you must specify a name" ""⟩ :=
  (c2_create_validation [] "" "dev" false false false ⟨"h", true, "t", "p", "c"⟩
    (.ok ⟨"cfg", [], "", "", "", ""⟩) ⟨[], [], .success⟩).1 rfl

/-- **C4 counterexample.** With `--yes` set and `--silent` not set but
the delete call failing, exactly one delete call is performed and no
list call follows — so "exactly one list-configs call if and only if
`--silent` is not set" does not hold of every invocation. -/
theorem c4_counterexample :
    countDeleteCalls (configsDeleteCmdRun [] false true false false
      ⟨"h", true, "t", "p", "c"⟩ (.err "http 500" "Unable to delete config") (.ok [])) = 1 ∧
    ¬ (countListCalls (configsDeleteCmdRun [] false true false false
      ⟨"h", true, "t", "p", "c"⟩ (.err "http 500" "Unable to delete config") (.ok [])) = 1) := by
  exact ⟨by decide, by decide⟩

/-- **C4 (amended).** For every invocation of the delete-config command
in which `--yes` is set or the prompt is answered affirmatively, the
ordered call trace is exactly one delete API call first, followed by
exactly one list-configs call when that delete call succeeds and
`--silent` is not set, and by nothing otherwise; in consequence there is
exactly one delete call, and exactly one list call if and only if the
delete succeeded and `--silent` is not set. -/
theorem c4_confirmed_delete (args : List String) (silent yes jsonFlag promptAnswer : Bool)
    (lc : LocalConfig) (apiDelete : ApiResult Unit)
    (apiList : ApiResult (List ConfigInfo))
    (h : yes = true ∨ promptAnswer = true) :
    (configsDeleteCmdRun args silent yes jsonFlag promptAnswer lc apiDelete apiList).calls =
      ApiCall.deleteConfig lc.apiHost lc.verifyTLS lc.token lc.project
          (resolvePositional args lc.config) ::
        (match apiDelete with
         | .ok _ =>
             if silent then []
             else [ApiCall.getConfigs lc.apiHost lc.verifyTLS lc.token lc.project]
         | .err _ _ => []) ∧
    countDeleteCalls
      (configsDeleteCmdRun args silent yes jsonFlag promptAnswer lc apiDelete apiList) = 1 ∧
    countListCalls
      (configsDeleteCmdRun args silent yes jsonFlag promptAnswer lc apiDelete apiList) =
      (match apiDelete with
       | .ok _ => if silent then 0 else 1
       | .err _ _ => 0) := by
  have hy : (yes || promptAnswer) = true := by
    rcases h with h | h <;> simp [h]
  cases apiDelete <;> cases silent <;> cases apiList <;>
    simp [configsDeleteCmdRun, hy, countDeleteCalls, countListCalls,
      ApiCall.isDeleteCall, ApiCall.isListCall]

/-- **C4 witness.** A `--yes` delete without `--silent` whose calls both
succeed issues exactly the two-call trace delete-then-list: one delete
call and one list call, in that order. -/
theorem c4_confirmed_delete_witness :
    (configsDeleteCmdRun [] false true false false ⟨"h", true, "t", "p", "c"⟩
        (.ok ()) (.ok [])).calls =
      [ApiCall.deleteConfig "h" true "t" "p" "c",
       ApiCall.getConfigs "h" true "t" "p"] ∧
    countDeleteCalls (configsDeleteCmdRun [] false true false false
      ⟨"h", true, "t", "p", "c"⟩ (.ok ()) (.ok [])) = 1 ∧
    countListCalls (configsDeleteCmdRun [] false true false false
      ⟨"h", true, "t", "p", "c"⟩ (.ok ()) (.ok [])) = 1 := by
  have h := c4_confirmed_delete [] false true false false ⟨"h", true, "t", "p", "c"⟩
    (.ok ()) (.ok []) (Or.inl rfl)
  exact ⟨h.1, h.2.1, h.2.2⟩

/-- **C8.** For every invocation of the list-audit-logs command with
`--number` set to `n`, at most `n` entries are rendered, in the
most-recent-first order the API returned; when `--number` is not
supplied, the bound is the flag's registered default 5. -/
theorem c8_logs_number_bound (jsonFlag : Bool) (n : Nat) (lc : LocalConfig)
    (logs : List LogEntry) :
    (configsLogsCmdRun jsonFlag (some n) lc (.ok logs)).printed =
      [PrintLogs logs n jsonFlag] ∧
    PrintLogs logs n false = .logList (logs.take n) ∧
    (logs.take n).length ≤ n ∧
    PrintLogs logs n true = .json (.arr ((logs.take n).map fun l => .str l.id)) ∧
    ((logs.take n).map fun l => Json.str l.id).length ≤ n ∧
    (configsLogsCmdRun jsonFlag none lc (.ok logs)).printed =
      [PrintLogs logs 5 jsonFlag] := by
  refine ⟨rfl, rfl, ?_, rfl, ?_, rfl⟩ <;>
    simp [List.length_take]

/-- **C9.** For every config name that begins with an underscore,
create-config with no `--environment` flag derives the empty string as
the environment and rejects the invocation with the
you-must-specify-an-environment error, even though the name contains an
underscore. -/
theorem c9_leading_underscore (name nameFlag : String)
    (noDefaultsFlag silent jsonFlag : Bool) (lc : LocalConfig)
    (api : ApiResult ConfigInfo) (rest : List Char)
    (h : name.toList = '_' :: rest) :
    name.toList.contains '_' = true ∧
    configsCreateResolveEnv "" name = "" ∧
    configsCreateCmdRun [name] nameFlag "" noDefaultsFlag silent jsonFlag lc api =
      ⟨[], [], .failure "you must specify an environment" ""⟩ := by
  have h' : name.data = '_' :: rest := h
  have hne : name ≠ "" := by
    intro he
    rw [he] at h
    have h0 : ([] : List Char) = '_' :: rest := h
    exact List.noConfusion h0
  have henv : configsCreateResolveEnv "" name = "" := by
    simp [configsCreateResolveEnv, goStringsIndex, String.toList, h', goStringsIndexAux]
    decide
  refine ⟨by simp [String.toList, h'], henv, ?_⟩
  simp [configsCreateCmdRun, resolvePositional, hne, henv]

/-- **C9 witness.** `configs create _dev` with no `--environment` is
rejected with the environment validation error. -/
theorem c9_leading_underscore_witness :
    ("_dev".toList.contains '_' = true) ∧
    configsCreateResolveEnv "" "_dev" = "" ∧
    configsCreateCmdRun ["_dev"] "" "" false false false ⟨"h", true, "t", "p", "c"⟩
      (.ok ⟨"cfg", [], "", "", "", ""⟩) =
      ⟨[], [], .failure "you must specify an environment" ""⟩ :=
  c9_leading_underscore "_dev" "" false false false ⟨"h", true, "t", "p", "c"⟩
    (.ok ⟨"cfg", [], "", "", "", ""⟩) "dev".toList (by decide)

/-- **C10.** For create, update, delete, and rollback, the `--silent`
flag suppresses only the success rendering: an API error is still
reported with its cause and message regardless of `--silent`, nothing is
printed on the error path, and the process exits non-zero. -/
theorem c10_silent_and_errors (args : List String)
    (nameFlag environmentFlag logFlag : String)
    (noDefaultsFlag silent jsonFlag promptAnswer : Bool) (lc : LocalConfig)
    (cause msg : String) (info : ConfigInfo) (log : LogEntry)
    (apiList : ApiResult (List ConfigInfo))
    (hname : resolvePositional args nameFlag ≠ "")
    (henv : configsCreateResolveEnv environmentFlag (resolvePositional args nameFlag) ≠ "") :
    ((configsCreateCmdRun args nameFlag environmentFlag noDefaultsFlag silent jsonFlag lc
        (.err cause msg)).exit = .failure cause msg ∧
     (configsCreateCmdRun args nameFlag environmentFlag noDefaultsFlag silent jsonFlag lc
        (.err cause msg)).printed = []) ∧
    ((configsUpdateCmdRun args nameFlag silent jsonFlag lc (.err cause msg)).exit =
        .failure cause msg ∧
     (configsUpdateCmdRun args nameFlag silent jsonFlag lc (.err cause msg)).printed = []) ∧
    ((configsDeleteCmdRun args silent true jsonFlag promptAnswer lc (.err cause msg)
        apiList).exit = .failure cause msg) ∧
    ((configsLogsRollbackCmdRun args logFlag silent jsonFlag lc (.err cause msg)).exit =
        .failure cause msg ∧
     (configsLogsRollbackCmdRun args logFlag silent jsonFlag lc (.err cause msg)).printed =
        []) ∧
    ((configsCreateCmdRun args nameFlag environmentFlag noDefaultsFlag true jsonFlag lc
        (.ok info)).printed = [] ∧
     (configsCreateCmdRun args nameFlag environmentFlag noDefaultsFlag false jsonFlag lc
        (.ok info)).printed = [printConfigInfo info jsonFlag]) ∧
    ((configsLogsRollbackCmdRun args logFlag true jsonFlag lc (.ok log)).printed = [] ∧
     (configsLogsRollbackCmdRun args logFlag false jsonFlag lc (.ok log)).printed =
        [PrintLog log jsonFlag]) ∧
    (CmdExit.failure cause msg).code ≠ 0 := by
  refine ⟨⟨?_, ?_⟩, ⟨rfl, rfl⟩, rfl, ⟨rfl, rfl⟩, ⟨?_, ?_⟩, ⟨rfl, rfl⟩, by simp [CmdExit.code]⟩ <;>
    simp [configsCreateCmdRun, hname, henv]

/-- **C10 witness.** A silent create whose API call fails still exits
through the error report carrying the cause and the message. -/
theorem c10_silent_and_errors_witness :
    (configsCreateCmdRun ["backend_dev"] "" "" false true false ⟨"h", true, "t", "p", "c"⟩
      (.err "http 500" "Unable to create config")).exit =
      .failure "http 500" "Unable to create config" :=
  ((c10_silent_and_errors ["backend_dev"] "" "" "lg" false true false false
    ⟨"h", true, "t", "p", "c"⟩ "http 500" "Unable to create config"
    ⟨"cfg", [], "", "", "", ""⟩ ⟨"id"⟩ (.ok []) (by decide) (by decide)).1).1

end DopplerCLI
